import Mathlib

/-
Shallow embedding of src/zebra.py (class ZebraPrinterManager).

Modelling conventions:
- Python numbers (int and finite float) are modelled as rationals; the
  float infinities and nan get their own constructors because int()
  treats them specially.
- Python dicts are modelled as association lists (unique keys in the
  documents that arise here); dict merge {**a, **b} is modelled by
  pyMerge below.
- External effects (subprocess runs, tool availability) are modelled by
  an explicit environment record; the manager's mutable attributes
  (settings, usb_online, printer_verified) form an explicit state.
-/

/-- Values that zebra.py passes around where the static type is open:
strings, finite numbers (Python int or float, modelled as a rational),
the float infinities, the float nan, and None. -/
inductive PyVal where
  | str (s : String)
  | rat (q : ℚ)
  | inf (pos : Bool)
  | nan
  | none
deriving DecidableEq

/-- Python exception kinds relevant to zebra.py's numeric conversion. -/
inductive PyErr where
  | valueError
  | typeError
  | overflowError
deriving DecidableEq

/-- Result universe of the Python builtin float(): a finite value, an
infinity, or nan. -/
inductive PyFloat where
  | fin (q : ℚ)
  | inf (pos : Bool)
  | nan
deriving DecidableEq

/-- Numeric value of a digit list, most significant digit first. -/
def digitsVal (l : List Char) : ℕ :=
  l.foldl (fun a c => a * 10 + (c.toNat - 48)) 0

/-- Modelled fragment of Python float(string) parsing: digits with at
most one decimal point ("12", "12.5", ".5", "5.").  Scientific
notation, inf and nan literals, underscores and whitespace trimming are
outside the model; inputs outside the fragment count as unparsable. -/
def parseDecimal (l : List Char) : Option ℚ :=
  if l.all Char.isDigit then
    if l.isEmpty then Option.none else some (digitsVal l)
  else
    match l.span (fun c => c ≠ '.') with
    | (ip, _ :: fp) =>
      if (ip.all Char.isDigit && fp.all Char.isDigit) && !(ip.isEmpty && fp.isEmpty) then
        some ((digitsVal ip : ℚ) + (digitsVal fp : ℚ) / ((10 : ℚ) ^ fp.length))
      else Option.none
    | (_, []) => Option.none

/-- Python float(string) on the decimal fragment, with an optional
leading sign. -/
def pyFloatOfString (s : String) : Option PyFloat :=
  match s.data with
  | '-' :: rest => (parseDecimal rest).map (fun q => PyFloat.fin (-q))
  | '+' :: rest => (parseDecimal rest).map (fun q => PyFloat.fin q)
  | l => (parseDecimal l).map PyFloat.fin

/-- The Python builtin float() applied to a zebra.py value: numbers pass
through, strings are parsed (ValueError on failure), None is not
castable to float (TypeError). -/
def pyFloat : PyVal → Except PyErr PyFloat
  | .rat q => .ok (.fin q)
  | .inf b => .ok (.inf b)
  | .nan => .ok .nan
  | .none => .error .typeError
  | .str s =>
    match pyFloatOfString s with
    | some f => .ok f
    | Option.none => .error .valueError

/-- Multiplication of a Python float by the (positive, integral)
resolution constant, as in float(mm) * self.DOTS_PER_MM. -/
def mulRes (f : PyFloat) (r : ℚ) : PyFloat :=
  match f with
  | .fin q => .fin (q * r)
  | .inf b => .inf b
  | .nan => .nan

/-- Truncation toward zero of a rational: the behaviour of the Python
builtin int() on a finite float. -/
def truncQ (q : ℚ) : ℤ :=
  Int.tdiv q.num q.den

/-- The Python builtin int() on a float: truncates finite values toward
zero, raises OverflowError on an infinity and ValueError on nan. -/
def intOfFloat : PyFloat → Except PyErr ℤ
  | .fin q => .ok (truncQ q)
  | .inf _ => .error .overflowError
  | .nan => .error .valueError

/-- ZebraPrinterManager.DOTS_PER_MM (source line 10, "203 DPI
approximation"). -/
def DOTS_PER_MM : ℚ := 8

/-- ZebraPrinterManager.mm_to_dots (source lines 52-57):
int(float(mm) * self.DOTS_PER_MM) inside try/except ValueError, the
handler returning 0.  Only ValueError is caught; TypeError (e.g. from
float(None)) and OverflowError (from int() of an infinity) propagate. -/
def mm_to_dots (mm : PyVal) : Except PyErr ℤ :=
  match (pyFloat mm).bind (fun f => intOfFloat (mulRes f DOTS_PER_MM)) with
  | .error .valueError => .ok 0
  | .error e => .error e
  | .ok n => .ok n

/-- Association-list model of a Python dict (keys are unique in the
documents arising here).  Lookup returns the first binding. -/
def dictLookup (k : String) : List (String × PyVal) → Option PyVal
  | [] => Option.none
  | p :: rest => if p.1 = k then some p.2 else dictLookup k rest

/-- Python dict merge as written on line 38, return a merged dict of
default_settings and loaded: the keys of a in order, each carrying b's
value when b also binds it, followed by the bindings of b whose keys
are absent from a. -/
def pyMerge (a b : List (String × PyVal)) : List (String × PyVal) :=
  a.map (fun p =>
    match dictLookup p.1 b with
    | some v => (p.1, v)
    | Option.none => p) ++
  b.filter (fun p => (dictLookup p.1 a).isNone)

/-- default_settings of ZebraPrinterManager.load_settings (lines 19-32). -/
def default_settings : List (String × PyVal) :=
  [("printer_name", .str "ZTC-GK420t"),
   ("text", .str "nicolocarcagni.dev"),
   ("darkness", .rat 30),
   ("media_darkness", .rat 15),
   ("speed", .rat 2),
   ("label_width_mm", .rat 50),
   ("label_height_mm", .rat 25),
   ("font_h_mm", .rat 4),
   ("font_w_mm", .rat 4),
   ("offset_x_mm", .rat 2),
   ("offset_y_mm", .rat 2),
   ("print_method", .str "direct_thermal")]

/-- Condition of the persisted config.json at startup. -/
inductive ConfigSource where
  | absent
  | malformed
  | parsed (d : List (String × PyVal))

/-- ZebraPrinterManager.load_settings (lines 18-42): the defaults when
the file is absent or raises JSONDecodeError, otherwise the merge of
the parsed document over the defaults. -/
def load_settings : ConfigSource → List (String × PyVal)
  | .absent => default_settings
  | .malformed => default_settings
  | .parsed d => pyMerge default_settings d

/-- The printer profile as operated on by the command generation and
the probes, with the fields at their documented types (floats as
rationals). -/
structure Settings where
  printer_name : String
  text : String
  darkness : ℤ
  media_darkness : ℤ
  speed : ℤ
  label_width_mm : ℚ
  label_height_mm : ℚ
  font_h_mm : ℚ
  font_w_mm : ℚ
  offset_x_mm : ℚ
  offset_y_mm : ℚ
  print_method : String

/-- The profile carrying the default_settings values. -/
def default_profile : Settings where
  printer_name := "ZTC-GK420t"
  text := "nicolocarcagni.dev"
  darkness := 30
  media_darkness := 15
  speed := 2
  label_width_mm := 50
  label_height_mm := 25
  font_h_mm := 4
  font_w_mm := 4
  offset_x_mm := 2
  offset_y_mm := 2
  print_method := "direct_thermal"

/-- mm_to_dots restricted to a finite numeric argument, where by
mm_to_dots_rat it never raises and returns the truncated product.
generate_zpl's field reads all go through this form. -/
def mmDots (q : ℚ) : ℤ := truncQ (q * DOTS_PER_MM)

/-- One directive of the generated stream: one constructor per f-string
appended to the zpl list in generate_zpl (lines 157-180). -/
inductive Zdir where
  | sd (darkness : ℤ)
  | xa
  | mtd
  | pr (speed : ℤ)
  | md (media_darkness : ℤ)
  | pw (width_dots : ℤ)
  | ll (height_dots : ℤ)
  | ci28
  | gb (width_dots height_dots border : ℤ)
  | testText (x y : ℤ)
  | fo (x y : ℤ)
  | a0 (h w : ℤ)
  | fd (data : String)
  | xz
deriving DecidableEq

/-- The literal text of each directive, matching the f-strings of
generate_zpl character for character. -/
def render : Zdir → String
  | .sd v => "~SD" ++ toString v
  | .xa => "^XA"
  | .mtd => "^MTD"
  | .pr v => "^PR" ++ toString v
  | .md v => "^MD" ++ toString v
  | .pw v => "^PW" ++ toString v
  | .ll v => "^LL" ++ toString v
  | .ci28 => "^CI28"
  | .gb w h t => "^FO0,0^GB" ++ toString w ++ "," ++ toString h ++ "," ++ toString t ++ ",B,0^FS"
  | .testText x y => "^FO" ++ toString x ++ "," ++ toString y ++ "^A0N,30,30^FDTEST FRAME^FS"
  | .fo x y => "^FO" ++ toString x ++ "," ++ toString y
  | .a0 h w => "^A0N," ++ toString h ++ "," ++ toString w
  | .fd t => "^FD" ++ t ++ "^FS"
  | .xz => "^XZ"

/-- The directive list generate_zpl builds (lines 146-180) before
joining.  Python // on integers is floor division, hence Int.fdiv. -/
def zplDirs (s : Settings) (test_pattern : Bool) : List Zdir :=
  let width_dots := mmDots s.label_width_mm
  let height_dots := mmDots s.label_height_mm
  let offset_x_dots := mmDots s.offset_x_mm
  let offset_y_dots := mmDots s.offset_y_mm
  let font_h_dots := mmDots s.font_h_mm
  let font_w_dots := mmDots s.font_w_mm
  [Zdir.sd s.darkness, Zdir.xa, Zdir.mtd, Zdir.pr s.speed,
   Zdir.md s.media_darkness, Zdir.pw width_dots, Zdir.ll height_dots,
   Zdir.ci28] ++
  (if test_pattern then
    [Zdir.gb width_dots height_dots (mmDots 1),
     Zdir.testText (Int.fdiv width_dots 4) (Int.fdiv height_dots 3)]
  else
    [Zdir.fo offset_x_dots offset_y_dots,
     Zdir.a0 font_h_dots font_w_dots,
     Zdir.fd s.text]) ++
  [Zdir.xz]

/-- The Python "\n".join applied to the directive list (line 181). -/
def joinNL : List String → String
  | [] => ""
  | [x] => x
  | x :: y :: xs => x ++ "\n" ++ joinNL (y :: xs)

/-- ZebraPrinterManager.generate_zpl (lines 146-181). -/
def generate_zpl (s : Settings) (test_pattern : Bool) : String :=
  joinNL ((zplDirs s test_pattern).map render)

/-- Number of positions at which pat occurs in s as a substring. -/
def countOccs (pat s : String) : ℕ :=
  (List.range (s.data.length + 1)).countP
    (fun i => pat.data.isPrefixOf (s.data.drop i))

/-- Bool version of the Python substring operator, pat in s, on char
lists. -/
def containsSub (pat : List Char) : List Char → Bool
  | [] => pat.isEmpty
  | c :: rest => pat.isPrefixOf (c :: rest) || containsSub pat rest

/-- The Python substring operator pat in s. -/
def hasSubstr (pat s : String) : Bool := containsSub pat.data s.data

/-- Host environment seen by the probes: availability of the two
diagnostic tools (shutil.which) and the text each produces when run;
Option.none for an output models the subprocess call raising. -/
structure ProbeEnv where
  lsusb_available : Bool
  lsusb_output : Option String
  lpstat_available : Bool
  lpstat_output : Option String

/-- The mutable attributes of ZebraPrinterManager (lines 12-16). -/
structure ManagerState where
  settings : Settings
  usb_online : Bool
  printer_verified : Bool

/-- ZebraPrinterManager.check_cups_status (lines 76-89). -/
def check_cups_status (env : ProbeEnv) (st : ManagerState) : ManagerState :=
  if !env.lpstat_available then { st with printer_verified := false }
  else
    match env.lpstat_output with
    | some out =>
      { st with printer_verified := hasSubstr st.settings.printer_name out }
    | Option.none => { st with printer_verified := false }

/-- ZebraPrinterManager.check_hardware_connection (lines 59-74): resets
usb_online, returns early fail-open when lsusb is missing (skipping the
spooler check), otherwise scans the lsusb output for the vendor
substrings and then refreshes the spooler flag. -/
def check_hardware_connection (env : ProbeEnv) (st : ManagerState) : ManagerState :=
  let st1 := { st with usb_online := false }
  if !env.lsusb_available then { st1 with usb_online := true }
  else
    let st2 :=
      match env.lsusb_output with
      | some out =>
        { st1 with usb_online := hasSubstr "Zebra" out || hasSubstr "0a5f:" out }
      | Option.none => { st1 with usb_online := false }
    check_cups_status env st2

/-- Outcome of print_label: either the early offline return, or the
stream and queue name handed to the lp dispatch. -/
inductive PrintOutcome where
  | abortedOffline
  | dispatched (stream : String) (queue : String)
deriving DecidableEq

/-- ZebraPrinterManager.print_label (lines 183-212): re-probe, gate on
usb_online, then build the stream and submit it.  The submission
result (success, spooler error, lp missing) only affects printed text,
never state, and is abstracted into the dispatched outcome. -/
def print_label (env : ProbeEnv) (st : ManagerState) (test_pattern : Bool) :
    ManagerState × PrintOutcome :=
  let st1 := check_hardware_connection env st
  if !st1.usb_online then (st1, .abortedOffline)
  else
    (st1, .dispatched (generate_zpl st1.settings test_pattern)
      st1.settings.printer_name)

/-- The attribute initialisation of __init__ (lines 12-16): both flags
start false, then check_hardware_connection runs once. -/
def initState (env : ProbeEnv) (s : Settings) : ManagerState :=
  check_hardware_connection env
    { settings := s, usb_online := false, printer_verified := false }

/-- Python int(string): an optional sign followed by digits (whitespace
trimming and underscores are outside the model). -/
def pyIntOfString (s : String) : Option ℤ :=
  match s.data with
  | '-' :: rest =>
    if rest.all Char.isDigit && !rest.isEmpty then some (-(digitsVal rest : ℤ))
    else Option.none
  | '+' :: rest =>
    if rest.all Char.isDigit && !rest.isEmpty then some ((digitsVal rest : ℤ))
    else Option.none
  | l =>
    if l.all Char.isDigit && !l.isEmpty then some ((digitsVal l : ℤ))
    else Option.none

/-- Membership in Python range(lo, hi) for an integer. -/
def rangeMem (lo hi v : ℤ) : Bool := decide (lo ≤ v) && decide (v < hi)

/-- ZebraPrinterManager.get_input (lines 94-106) driven by a finite
list of successive user entries: empty input returns the default when
one is given; a failed cast or an out-of-range value repeats the
prompt; Option.none means the supplied entries ran out without the
loop returning (in Python the loop would keep prompting). -/
def get_input {α : Type} (inputs : List String) (cast : String → Option α)
    (valid_range : Option (α → Bool)) (default : Option α) : Option α :=
  match inputs with
  | [] => Option.none
  | i :: rest =>
    if i = "" ∧ default.isSome = true then default
    else
      match cast i with
      | Option.none => get_input rest cast valid_range default
      | some v =>
        match valid_range with
        | some mem =>
          if mem v then some v else get_input rest cast valid_range default
        | Option.none => some v

/-- The darkness assignment of menu option 6 (line 295): the profile
field is updated only when the validation loop returns a value. -/
def set_darkness (s : Settings) (inputs : List String) : Settings :=
  match get_input inputs pyIntOfString (some (rangeMem 0 31)) Option.none with
  | some v => { s with darkness := v }
  | Option.none => s

/-- Discriminator for the start-of-format marker directive. -/
def isXAdir : Zdir → Bool
  | .xa => true
  | _ => false

/-- Discriminator for the end-of-format marker directive. -/
def isXZdir : Zdir → Bool
  | .xz => true
  | _ => false

/-- Discriminator for the graphic-box directive. -/
def isGBdir : Zdir → Bool
  | .gb _ _ _ => true
  | _ => false

/-- Discriminator for the diagnostic text directive of the test frame. -/
def isTestTextDir : Zdir → Bool
  | .testText _ _ => true
  | _ => false

/-- Discriminator for the field-data directive. -/
def isFDdir : Zdir → Bool
  | .fd _ => true
  | _ => false

/-- Test fixture: host with neither diagnostic tool installed. -/
def probeEnvNoTools : ProbeEnv where
  lsusb_available := false
  lsusb_output := Option.none
  lpstat_available := false
  lpstat_output := Option.none

/-- Test fixture: host where both tools run and report the printer. -/
def probeEnvZebra : ProbeEnv where
  lsusb_available := true
  lsusb_output := some "Bus 002 Device 003: ID 0a5f:0081 Zebra GK420t"
  lpstat_available := true
  lpstat_output := some "printer ZTC-GK420t is idle."

/-- Test fixture: host where lsusb runs but lists no Zebra device. -/
def probeEnvNoZebra : ProbeEnv where
  lsusb_available := true
  lsusb_output := some "Bus 001 Device 001: Linux root hub"
  lpstat_available := true
  lpstat_output := some ""

/-- Test fixture: the manager state right before the probe in __init__. -/
def initialManagerState : ManagerState where
  settings := default_profile
  usb_online := false
  printer_verified := false

theorem mm_to_dots_rat (q : ℚ) :
    mm_to_dots (.rat q) = .ok (truncQ (q * DOTS_PER_MM)) := rfl

theorem mm_to_dots_eq_mmDots (q : ℚ) :
    mm_to_dots (.rat q) = .ok (mmDots q) := rfl

theorem truncQ_eq (q : ℚ) : truncQ q = if 0 ≤ q then ⌊q⌋ else ⌈q⌉ := by
  unfold truncQ
  by_cases h : 0 ≤ q
  · rw [if_pos h, Rat.floor_def]
    exact Int.tdiv_eq_ediv (Rat.num_nonneg.mpr h) (Int.natCast_nonneg _)
  · rw [if_neg h]
    have hneg : 0 ≤ -q := by linarith [lt_of_not_ge h]
    have h1 : q.num = -(-q).num := by rw [Rat.neg_num]; ring
    have h2 : (q.den : ℤ) = ((-q).den : ℤ) := by rw [Rat.neg_den]
    calc Int.tdiv q.num q.den
        = Int.tdiv (-(-q).num) ((-q).den : ℤ) := by rw [← h1, ← h2]
      _ = -(Int.tdiv ((-q).num) ((-q).den : ℤ)) := Int.neg_tdiv _ _
      _ = -⌊-q⌋ := by
          rw [Int.tdiv_eq_ediv (Rat.num_nonneg.mpr hneg) (Int.natCast_nonneg _),
            Rat.floor_def]
      _ = ⌈q⌉ := by rw [Int.floor_neg]; ring

theorem truncQ_mono {a b : ℚ} (h : a ≤ b) : truncQ a ≤ truncQ b := by
  rw [truncQ_eq, truncQ_eq]
  by_cases ha : 0 ≤ a
  · rw [if_pos ha, if_pos (le_trans ha h)]
    exact Int.floor_le_floor h
  · by_cases hb : 0 ≤ b
    · rw [if_neg ha, if_pos hb]
      have h1 : ⌈a⌉ ≤ 0 := Int.ceil_le.mpr (by exact_mod_cast le_of_not_le ha)
      have h2 : 0 ≤ ⌊b⌋ := Int.floor_nonneg.mpr hb
      omega
    · rw [if_neg ha, if_neg hb]
      exact Int.ceil_le_ceil h

theorem truncQ_intCast (n : ℤ) : truncQ ((n : ℚ)) = n := by
  rw [truncQ_eq]
  by_cases h : 0 ≤ ((n : ℚ))
  · rw [if_pos h, Int.floor_intCast]
  · rw [if_neg h, Int.ceil_intCast]

theorem truncQ_nonneg_floor {q : ℚ} (h : 0 ≤ q) : truncQ q = ⌊q⌋ := by
  rw [truncQ_eq, if_pos h]

theorem truncQ_149 : truncQ ((149 : ℚ) / 100 * DOTS_PER_MM) = 11 := by
  rw [truncQ_nonneg_floor (by norm_num [DOTS_PER_MM])]
  have h : (149 : ℚ) / 100 * DOTS_PER_MM = 298 / 25 := by
    norm_num [DOTS_PER_MM]
  rw [h, Int.floor_eq_iff]
  norm_num

theorem mmDots_intCast (n : ℤ) : mmDots ((n : ℚ)) = n * 8 := by
  unfold mmDots
  have h : (n : ℚ) * DOTS_PER_MM = ((n * 8 : ℤ) : ℚ) := by
    push_cast [DOTS_PER_MM]
    ring
  rw [h, truncQ_intCast]

theorem mmDots_50 : mmDots (50 : ℚ) = 400 := by
  have h : (50 : ℚ) = ((50 : ℤ) : ℚ) := by norm_num
  rw [h, mmDots_intCast]
  decide

theorem mmDots_25 : mmDots (25 : ℚ) = 200 := by
  have h : (25 : ℚ) = ((25 : ℤ) : ℚ) := by norm_num
  rw [h, mmDots_intCast]
  decide

theorem mmDots_4 : mmDots (4 : ℚ) = 32 := by
  have h : (4 : ℚ) = ((4 : ℤ) : ℚ) := by norm_num
  rw [h, mmDots_intCast]
  decide

theorem mmDots_2 : mmDots (2 : ℚ) = 16 := by
  have h : (2 : ℚ) = ((2 : ℤ) : ℚ) := by norm_num
  rw [h, mmDots_intCast]
  decide

theorem dictLookup_append (k : String) (a b : List (String × PyVal)) :
    dictLookup k (a ++ b) =
      match dictLookup k a with
      | some v => some v
      | Option.none => dictLookup k b := by
  induction a with
  | nil => simp [dictLookup]
  | cons p rest ih =>
    by_cases h : p.1 = k
    · simp [dictLookup, h]
    · simp [dictLookup, h, ih]

theorem dictLookup_mapMerge (k : String) (a d : List (String × PyVal)) :
    dictLookup k (a.map (fun p =>
      match dictLookup p.1 d with
      | some v => (p.1, v)
      | Option.none => p)) =
      match dictLookup k a with
      | some w =>
        match dictLookup k d with
        | some v => some v
        | Option.none => some w
      | Option.none => Option.none := by
  induction a with
  | nil => simp [dictLookup]
  | cons p rest ih =>
    by_cases h : p.1 = k
    · subst h
      cases hd : dictLookup p.1 d <;> simp [dictLookup, hd]
    · cases hd : dictLookup p.1 d <;> simp [dictLookup, h, hd, ih]

theorem dictLookup_filter_none (k : String) (pred : String × PyVal → Bool)
    (d : List (String × PyVal)) (h : dictLookup k d = Option.none) :
    dictLookup k (d.filter pred) = Option.none := by
  induction d with
  | nil => simp [dictLookup]
  | cons p rest ih =>
    by_cases hk : p.1 = k
    · simp only [dictLookup, if_pos hk] at h
      simp at h
    · simp only [dictLookup, if_neg hk] at h
      cases hp : pred p
      · simp [List.filter_cons, hp, ih h]
      · simp [List.filter_cons, hp, dictLookup, hk, ih h]

theorem dictLookup_filter_keep (k : String) (a d : List (String × PyVal))
    (hk : dictLookup k a = Option.none) :
    dictLookup k (d.filter (fun p => (dictLookup p.1 a).isNone)) =
      dictLookup k d := by
  induction d with
  | nil => simp
  | cons p rest ih =>
    by_cases hpk : p.1 = k
    · subst hpk
      have hkeep : (dictLookup p.1 a).isNone = true := by rw [hk]; rfl
      simp [List.filter_cons, hkeep, dictLookup]
    · cases hp : (dictLookup p.1 a).isNone
      · simp [List.filter_cons, hp, dictLookup, hpk, ih]
      · simp [List.filter_cons, hp, dictLookup, hpk, ih]

theorem load_settings_absentKey (d : List (String × PyVal)) (k : String)
    (h : dictLookup k d = Option.none) :
    dictLookup k (load_settings (.parsed d)) = dictLookup k default_settings := by
  unfold load_settings pyMerge
  rw [dictLookup_append, dictLookup_mapMerge]
  cases ha : dictLookup k default_settings
  · simp [dictLookup_filter_none k _ d h]
  · simp [h]

theorem load_settings_docKey (d : List (String × PyVal)) (k : String) (v : PyVal)
    (h : dictLookup k d = some v) :
    dictLookup k (load_settings (.parsed d)) = some v := by
  unfold load_settings pyMerge
  rw [dictLookup_append, dictLookup_mapMerge]
  cases ha : dictLookup k default_settings
  · simp [dictLookup_filter_keep k default_settings d ha, h]
  · simp [h]

theorem joinNL_cons_prefix (x : String) (l : List String) :
    ∃ t, joinNL (x :: l) = x ++ t := by
  cases l with
  | nil => exact ⟨"", by simp [joinNL]⟩
  | cons y ys => exact ⟨"\n" ++ joinNL (y :: ys), by simp [joinNL, String.append_assoc]⟩

theorem joinNL_concat_suffix (l : List String) (x : String) :
    ∃ t, joinNL (l ++ [x]) = t ++ x := by
  induction l with
  | nil => exact ⟨"", by simp [joinNL]⟩
  | cons y ys ih =>
    obtain ⟨t, ht⟩ := ih
    cases ys with
    | nil => exact ⟨y ++ "\n", by simp [joinNL, String.append_assoc]⟩
    | cons z zs =>
      refine ⟨y ++ "\n" ++ t, ?_⟩
      show joinNL (y :: ((z :: zs) ++ [x])) = y ++ "\n" ++ t ++ x
      rw [List.cons_append, joinNL, ← List.cons_append, ht, String.append_assoc,
        String.append_assoc, String.append_assoc]

theorem get_input_range (inputs : List String) (cast : String → Option ℤ)
    (lo hi v : ℤ)
    (h : get_input inputs cast (some (rangeMem lo hi)) Option.none = some v) :
    lo ≤ v ∧ v < hi := by
  induction inputs with
  | nil => simp [get_input] at h
  | cons i rest ih =>
    rw [get_input, if_neg (by simp)] at h
    cases hc : cast i with
    | none => simp only [hc] at h; exact ih h
    | some w =>
      simp only [hc] at h
      by_cases hr : rangeMem lo hi w = true
      · rw [if_pos hr] at h
        have hv : w = v := by simpa using h
        subst hv
        simpa [rangeMem] using hr
      · rw [if_neg hr] at h
        exact ih h

/-- C1: for every profile and probe outcome, if the transport check
reports offline (usb_online false after check_hardware_connection),
print_label returns the early abort outcome: no command stream is built
and the lp dispatcher is never reached. -/
theorem C1_offline_aborts (env : ProbeEnv) (st : ManagerState) (tp : Bool)
    (h : (check_hardware_connection env st).usb_online = false) :
    (print_label env st tp).2 = PrintOutcome.abortedOffline := by
  unfold print_label
  simp [h]

/-- Witness for C1 at a concrete environment whose lsusb output lists
no Zebra device. -/
theorem C1_offline_aborts_witness :
    (print_label probeEnvNoZebra initialManagerState false).2 =
      PrintOutcome.abortedOffline :=
  C1_offline_aborts probeEnvNoZebra initialManagerState false (by decide)

/-- C3: the transport check fails open (online) when lsusb is missing,
the spooler check fails closed (unverified) when lpstat is missing, and
when a tool is present and runs, the flag equals the substring test on
its output: vendor name or vendor id for usb, configured printer_name
for the spooler. -/
theorem C3_probe_tool_policy (env : ProbeEnv) (st : ManagerState) :
    (env.lsusb_available = false →
      (check_hardware_connection env st).usb_online = true) ∧
    (env.lpstat_available = false →
      (check_cups_status env st).printer_verified = false) ∧
    (∀ out, env.lsusb_available = true → env.lsusb_output = some out →
      (check_hardware_connection env st).usb_online =
        (hasSubstr "Zebra" out || hasSubstr "0a5f:" out)) ∧
    (∀ out, env.lpstat_available = true → env.lpstat_output = some out →
      (check_cups_status env st).printer_verified =
        hasSubstr st.settings.printer_name out) := by
  refine ⟨?_, ?_, ?_, ?_⟩
  · intro h
    unfold check_hardware_connection
    simp [h]
  · intro h
    unfold check_cups_status
    simp [h]
  · intro out h1 h2
    unfold check_hardware_connection check_cups_status
    cases hl : env.lpstat_available <;> cases hp : env.lpstat_output <;>
      simp [h1, h2, hl, hp]
  · intro out h1 h2
    unfold check_cups_status
    simp [h1, h2]

/-- Witness for C3: both fallback branches and both substring branches
exercised at concrete environments. -/
theorem C3_probe_tool_policy_witness :
    (check_hardware_connection probeEnvNoTools initialManagerState).usb_online = true ∧
    (check_cups_status probeEnvNoTools initialManagerState).printer_verified = false ∧
    (check_hardware_connection probeEnvZebra initialManagerState).usb_online = true ∧
    (check_cups_status probeEnvZebra initialManagerState).printer_verified = true :=
  ⟨(C3_probe_tool_policy probeEnvNoTools initialManagerState).1 rfl,
   (C3_probe_tool_policy probeEnvNoTools initialManagerState).2.1 rfl,
   ((C3_probe_tool_policy probeEnvZebra initialManagerState).2.2.1
      "Bus 002 Device 003: ID 0a5f:0081 Zebra GK420t" rfl rfl).trans (by decide),
   ((C3_probe_tool_policy probeEnvZebra initialManagerState).2.2.2
      "printer ZTC-GK420t is idle." rfl rfl).trans (by decide)⟩

/-- C10: when lsusb is absent, check_hardware_connection sets usb_online
true and returns early, leaving printer_verified exactly as it was
(false right after construction); when lsusb is present the spooler
flag is refreshed through check_cups_status. -/
theorem C10_skip_spooler_refresh (env : ProbeEnv) (st : ManagerState) :
    (env.lsusb_available = false →
      check_hardware_connection env st = { st with usb_online := true }) ∧
    (env.lsusb_available = true →
      (check_hardware_connection env st).printer_verified =
        (check_cups_status env st).printer_verified) ∧
    (∀ s : Settings, env.lsusb_available = false →
      (initState env s).usb_online = true ∧
      (initState env s).printer_verified = false) := by
  refine ⟨?_, ?_, ?_⟩
  · intro h
    unfold check_hardware_connection
    simp [h]
  · intro h
    unfold check_hardware_connection check_cups_status
    cases ho : env.lsusb_output <;> cases hl : env.lpstat_available <;>
      cases hp : env.lpstat_output <;> simp [h, ho, hl, hp]
  · intro s h
    unfold initState check_hardware_connection
    simp [h]

/-- Witness for C10 at concrete environments with and without lsusb. -/
theorem C10_skip_spooler_refresh_witness :
    check_hardware_connection probeEnvNoTools initialManagerState =
      { initialManagerState with usb_online := true } ∧
    (check_hardware_connection probeEnvZebra initialManagerState).printer_verified =
      (check_cups_status probeEnvZebra initialManagerState).printer_verified ∧
    (initState probeEnvNoTools default_profile).usb_online = true ∧
    (initState probeEnvNoTools default_profile).printer_verified = false :=
  ⟨(C10_skip_spooler_refresh probeEnvNoTools initialManagerState).1 rfl,
   (C10_skip_spooler_refresh probeEnvZebra initialManagerState).2.1 rfl,
   ((C10_skip_spooler_refresh probeEnvNoTools initialManagerState).2.2
      default_profile rfl).1,
   ((C10_skip_spooler_refresh probeEnvNoTools initialManagerState).2.2
      default_profile rfl).2⟩

/-- C5 (amended): the stream is the rendered directives joined by
newlines in the listed order; it starts with the darkness directive and
ends with the end-of-format marker, and the directive list contains
exactly one start-of-format element and exactly one end-of-format
element.  (At whole-string level the marker substring count can exceed
one when the text payload itself contains a marker, see the
counterexample.) -/
theorem C5_stream_markers (s : Settings) (tp : Bool) :
    generate_zpl s tp = joinNL ((zplDirs s tp).map render) ∧
    (∃ t, generate_zpl s tp = ("~SD" ++ toString s.darkness) ++ t) ∧
    (∃ t, generate_zpl s tp = t ++ "^XZ") ∧
    (zplDirs s tp).countP isXAdir = 1 ∧
    (zplDirs s tp).countP isXZdir = 1 := by
  refine ⟨rfl, ?_, ?_, ?_, ?_⟩
  · obtain ⟨rest, hr⟩ : ∃ rest,
        (zplDirs s tp).map render = ("~SD" ++ toString s.darkness) :: rest := by
      cases tp <;> exact ⟨_, rfl⟩
    obtain ⟨t, ht⟩ := joinNL_cons_prefix ("~SD" ++ toString s.darkness) rest
    refine ⟨t, ?_⟩
    show joinNL ((zplDirs s tp).map render) = _
    rw [hr]
    exact ht
  · obtain ⟨front, hf⟩ : ∃ front,
        (zplDirs s tp).map render = front ++ ["^XZ"] := by
      cases tp with
      | true =>
        exact ⟨["~SD" ++ toString s.darkness, "^XA", "^MTD",
          "^PR" ++ toString s.speed, "^MD" ++ toString s.media_darkness,
          "^PW" ++ toString (mmDots s.label_width_mm),
          "^LL" ++ toString (mmDots s.label_height_mm), "^CI28",
          "^FO0,0^GB" ++ toString (mmDots s.label_width_mm) ++ "," ++
            toString (mmDots s.label_height_mm) ++ "," ++ toString (mmDots 1) ++
            ",B,0^FS",
          "^FO" ++ toString (Int.fdiv (mmDots s.label_width_mm) 4) ++ "," ++
            toString (Int.fdiv (mmDots s.label_height_mm) 3) ++
            "^A0N,30,30^FDTEST FRAME^FS"], rfl⟩
      | false =>
        exact ⟨["~SD" ++ toString s.darkness, "^XA", "^MTD",
          "^PR" ++ toString s.speed, "^MD" ++ toString s.media_darkness,
          "^PW" ++ toString (mmDots s.label_width_mm),
          "^LL" ++ toString (mmDots s.label_height_mm), "^CI28",
          "^FO" ++ toString (mmDots s.offset_x_mm) ++ "," ++
            toString (mmDots s.offset_y_mm),
          "^A0N," ++ toString (mmDots s.font_h_mm) ++ "," ++
            toString (mmDots s.font_w_mm),
          "^FD" ++ s.text ++ "^FS"], rfl⟩
    obtain ⟨t, ht⟩ := joinNL_concat_suffix front "^XZ"
    refine ⟨t, ?_⟩
    show joinNL ((zplDirs s tp).map render) = _
    rw [hf]
    exact ht
  · cases tp <;>
      simp [zplDirs, List.countP_cons, List.countP_append, isXAdir]
  · cases tp <;>
      simp [zplDirs, List.countP_cons, List.countP_append, isXZdir]

/-- C5 counterexample: with the text payload "^XA" the joined stream of
the non-test variant contains two occurrences of the start-of-format
marker as a substring, so the claim's "contains exactly one
start-of-format marker" fails for arbitrary text payloads. -/
theorem C5_marker_count_counterexample :
    countOccs "^XA"
      (generate_zpl { default_profile with text := "^XA" } false) = 2 := by
  have hdirs : zplDirs { default_profile with text := "^XA" } false =
      [Zdir.sd 30, Zdir.xa, Zdir.mtd, Zdir.pr 2, Zdir.md 15, Zdir.pw 400,
       Zdir.ll 200, Zdir.ci28, Zdir.fo 16 16, Zdir.a0 32 32,
       Zdir.fd "^XA", Zdir.xz] := by
    simp [zplDirs, default_profile, mmDots_50, mmDots_25, mmDots_4, mmDots_2]
  unfold generate_zpl
  rw [hdirs]
  decide

/-- C8: the test-frame variant emits exactly one graphic-box element,
spanning the full computed width and height with border mm_to_dots(1),
plus exactly one fixed diagnostic text field at (width_dots // 4,
height_dots // 3); the text variant emits exactly one field-data
element carrying the configured text, at the converted offsets with
the converted font size; the two variants are mutually exclusive. -/
theorem C8_content_elements (s : Settings) :
    ((zplDirs s true).countP isGBdir = 1 ∧
     Zdir.gb (mmDots s.label_width_mm) (mmDots s.label_height_mm) (mmDots 1)
       ∈ zplDirs s true ∧
     (zplDirs s true).countP isTestTextDir = 1 ∧
     Zdir.testText (Int.fdiv (mmDots s.label_width_mm) 4)
       (Int.fdiv (mmDots s.label_height_mm) 3) ∈ zplDirs s true ∧
     (zplDirs s true).countP isFDdir = 0) ∧
    ((zplDirs s false).countP isFDdir = 1 ∧
     Zdir.fd s.text ∈ zplDirs s false ∧
     Zdir.fo (mmDots s.offset_x_mm) (mmDots s.offset_y_mm) ∈ zplDirs s false ∧
     Zdir.a0 (mmDots s.font_h_mm) (mmDots s.font_w_mm) ∈ zplDirs s false ∧
     (zplDirs s false).countP isGBdir = 0 ∧
     (zplDirs s false).countP isTestTextDir = 0) := by
  refine ⟨⟨?_, ?_, ?_, ?_, ?_⟩, ?_, ?_, ?_, ?_, ?_, ?_⟩ <;>
    simp [zplDirs, List.countP_cons, List.countP_append, isGBdir,
      isTestTextDir, isFDdir]

/-- C2 counterexample: a key extra to the default key set is retained
by the merge {**defaults, **loaded}, not ignored, so the loaded profile
does not contain exactly the default keys. -/
theorem C2_extra_key_counterexample :
    dictLookup "extra_key" default_settings = Option.none ∧
    dictLookup "extra_key"
      (load_settings (.parsed [("extra_key", PyVal.str "x")])) =
      some (PyVal.str "x") :=
  ⟨rfl, rfl⟩

/-- C2 (amended): for a successfully parsed document, every key absent
from the document carries its built-in default, and every key present
in the document (known or extra) carries the document's value; extra
keys are retained in the result rather than ignored. -/
theorem C2_merge_semantics (d : List (String × PyVal)) (k : String) :
    (dictLookup k d = Option.none →
      dictLookup k (load_settings (.parsed d)) = dictLookup k default_settings) ∧
    (∀ v, dictLookup k d = some v →
      dictLookup k (load_settings (.parsed d)) = some v) :=
  ⟨load_settings_absentKey d k, fun v h => load_settings_docKey d k v h⟩

/-- Witness for C2 on a one-key document: an absent key keeps its
default and the present key takes the document value. -/
theorem C2_merge_semantics_witness :
    dictLookup "text" (load_settings (.parsed [("darkness", PyVal.rat 10)])) =
      dictLookup "text" default_settings ∧
    dictLookup "darkness" (load_settings (.parsed [("darkness", PyVal.rat 10)])) =
      some (PyVal.rat 10) :=
  ⟨(C2_merge_semantics [("darkness", PyVal.rat 10)] "text").1 rfl,
   (C2_merge_semantics [("darkness", PyVal.rat 10)] "darkness").2
     (PyVal.rat 10) rfl⟩

/-- C4 counterexample: mm_to_dots propagates TypeError on the input
None instead of returning 0, so "the conversion never fails, for any
input" is false: only ValueError is caught. -/
theorem C4_typeerror_counterexample :
    mm_to_dots PyVal.none = .error PyErr.typeError ∧
    mm_to_dots PyVal.none ≠ .ok 0 :=
  ⟨rfl, fun h => Except.noConfusion h⟩

/-- C4 (amended): for every string that fails to parse as a float and
for nan, mm_to_dots returns 0 (the ValueError is caught); but inputs
that are not castable to float raise TypeError and infinite values
raise OverflowError, both of which propagate. -/
theorem C4_error_policy :
    (∀ s : String, pyFloatOfString s = Option.none →
      mm_to_dots (.str s) = .ok 0) ∧
    mm_to_dots .nan = .ok 0 ∧
    mm_to_dots .none = .error .typeError ∧
    (∀ b, mm_to_dots (.inf b) = .error .overflowError) := by
  refine ⟨?_, rfl, rfl, fun b => rfl⟩
  intro s h
  simp [mm_to_dots, pyFloat, h, Except.bind]

/-- Witness for C4 at the unparsable string "abc". -/
theorem C4_error_policy_witness :
    mm_to_dots (.str "abc") = .ok 0 :=
  C4_error_policy.1 "abc" rfl

/-- C6 counterexample: load_settings performs no range validation, so a
persisted document carrying darkness 31 produces a profile whose
darkness violates the claimed [0,30] invariant. -/
theorem C6_load_invariant_counterexample :
    dictLookup "darkness"
      (load_settings (.parsed [("darkness", PyVal.rat 31)])) =
      some (PyVal.rat 31) ∧
    ¬((31 : ℚ) ≤ 30) :=
  ⟨rfl, by norm_num⟩

/-- C6 (amended): the interactive validation layer does enforce the
bounds: any value get_input returns under range(0,31), range(-30,31) or
range(2,7) lies in [0,30], [-30,30] or [2,6] respectively, and the
out-of-range entry "31" for darkness leaves the profile unchanged; but
load_settings applies no such validation (see the counterexample). -/
theorem C6_input_validation (inputs : List String) (v : ℤ) :
    (get_input inputs pyIntOfString (some (rangeMem 0 31)) Option.none = some v →
      0 ≤ v ∧ v ≤ 30) ∧
    (get_input inputs pyIntOfString (some (rangeMem (-30) 31)) Option.none = some v →
      -30 ≤ v ∧ v ≤ 30) ∧
    (get_input inputs pyIntOfString (some (rangeMem 2 7)) Option.none = some v →
      2 ≤ v ∧ v ≤ 6) ∧
    (∀ s : Settings, set_darkness s ["31"] = s) := by
  refine ⟨?_, ?_, ?_, fun s => rfl⟩
  · intro h
    have := get_input_range _ _ _ _ _ h
    omega
  · intro h
    have := get_input_range _ _ _ _ _ h
    omega
  · intro h
    have := get_input_range _ _ _ _ _ h
    omega

/-- Witness for C6: accepted in-range entries for the three calibrate
prompts, and the rejected darkness entry 31. -/
theorem C6_input_validation_witness :
    ((0 : ℤ) ≤ 15 ∧ (15 : ℤ) ≤ 30) ∧
    ((-30 : ℤ) ≤ -5 ∧ (-5 : ℤ) ≤ 30) ∧
    ((2 : ℤ) ≤ 5 ∧ (5 : ℤ) ≤ 6) ∧
    set_darkness default_profile ["31"] = default_profile :=
  ⟨(C6_input_validation ["15"] 15).1 rfl,
   (C6_input_validation ["-5"] (-5)).2.1 rfl,
   (C6_input_validation ["5"] 5).2.2.1 rfl,
   (C6_input_validation [] 0).2.2.2 default_profile⟩

/-- C7: mm_to_dots multiplies the length by the fixed resolution of 8
dots per mm and truncates toward zero (floor for nonnegative, ceiling
for negative, never rounding): 1.49mm gives 11 dots (11.92 truncated,
not 12), 50mm gives 400, 0 gives 0. -/
theorem C7_resolution_truncation :
    (∀ q : ℚ, mm_to_dots (.rat q) = .ok (truncQ (q * DOTS_PER_MM))) ∧
    DOTS_PER_MM = 8 ∧
    (∀ q : ℚ, truncQ q = if 0 ≤ q then ⌊q⌋ else ⌈q⌉) ∧
    mm_to_dots (.rat (149 / 100)) = .ok 11 ∧
    mm_to_dots (.rat 50) = .ok 400 ∧
    mm_to_dots (.rat 0) = .ok 0 := by
  refine ⟨fun q => rfl, rfl, truncQ_eq, ?_, ?_, ?_⟩
  · rw [mm_to_dots_rat, truncQ_149]
  · rw [mm_to_dots_rat]
    have h : (50 : ℚ) * DOTS_PER_MM = ((400 : ℤ) : ℚ) := by
      norm_num [DOTS_PER_MM]
    rw [h, truncQ_intCast]
  · rw [mm_to_dots_rat]
    have h : (0 : ℚ) * DOTS_PER_MM = ((0 : ℤ) : ℚ) := by norm_num
    rw [h, truncQ_intCast]

/-- C9: for the fixed 8 dots per mm resolution, mm_to_dots is monotone
non-decreasing in the numeric length argument. -/
theorem C9_mm_to_dots_mono (a b : ℚ) (hab : a ≤ b) (x y : ℤ)
    (hx : mm_to_dots (.rat a) = .ok x) (hy : mm_to_dots (.rat b) = .ok y) :
    x ≤ y := by
  rw [mm_to_dots_rat] at hx hy
  simp only [Except.ok.injEq] at hx hy
  subst hx
  subst hy
  exact truncQ_mono
    (mul_le_mul_of_nonneg_right hab (by norm_num [DOTS_PER_MM]))

/-- Witness for C9 at 1mm and 2mm. -/
theorem C9_mm_to_dots_mono_witness : (8 : ℤ) ≤ 16 :=
  C9_mm_to_dots_mono 1 2 (by norm_num) 8 16
    (by rw [mm_to_dots_rat]
        have h : (1 : ℚ) * DOTS_PER_MM = ((8 : ℤ) : ℚ) := by
          norm_num [DOTS_PER_MM]
        rw [h, truncQ_intCast])
    (by rw [mm_to_dots_rat]
        have h : (2 : ℚ) * DOTS_PER_MM = ((16 : ℤ) : ℚ) := by
          norm_num [DOTS_PER_MM]
        rw [h, truncQ_intCast])
